import Mathlib

/-!
Verification of the FraudDetection engine (transaction risk scoring,
metrics aggregation, alerting, compliance lookups) against its
natural-language specification.

The TypeScript sources are shallowly embedded:
* JavaScript numbers are modelled as exact rationals (ℚ); millisecond
  timestamps as integers (ℤ).
* Math.round is floor(x + 1/2), which coincides with JS semantics on
  both positive and negative inputs.
* Array.prototype.sort with a comparator is modelled by insertion sort
  with the preorder the comparator induces (JS sort is stable, and so is
  insertion sort).
* String.prototype.toLowerCase / includes are modelled on the
  underlying character lists (the repository data is ASCII).
-/

/-! ### Data model (src/types.ts as used by the engine) -/

/-- Risk levels produced by the scorer decision table (spec section 4.1). -/
inductive RiskLevel where
  | LOW
  | MEDIUM
  | CRITICAL
deriving DecidableEq, Repr

/-- Analyst-facing lifecycle states of a transaction. -/
inductive TxStatus where
  | PENDING
  | ANALYZING
  | ALLOWED
  | BLOCKED
  | FLAGGED
deriving DecidableEq, Repr

/-- Alert severities, in the sort order CRITICAL = 0, WARNING = 1, INFO = 2. -/
inductive Severity where
  | CRITICAL
  | WARNING
  | INFO
deriving DecidableEq, Repr

/-- Overall system health classification (spec section 4.5). -/
inductive Health where
  | NORMAL
  | WARNING
  | CRITICAL
deriving DecidableEq, Repr

/-- Rolling behavioral profile of a user. -/
structure UserProfile where
  history : List ℚ
  mean : ℚ
  stdDev : ℚ
deriving DecidableEq, Repr

/-- A stored fraud-case narrative in the knowledge base. -/
structure FraudCase where
  id : String
  narrative : String
  merchant : String
  type : String
  vectorId : Option String
deriving DecidableEq, Repr

/-- A fully-scored transaction as emitted by the risk scorer. -/
structure Transaction where
  id : String
  timestamp : ℤ
  amount : ℚ
  merchant : String
  merchantId : String
  narrative : String
  location : String
  ip : String
  zScore : ℚ
  velocityScore : ℚ
  signatureMatchScore : ℚ
  matchedCaseId : Option String
  riskLevel : RiskLevel
  status : TxStatus
deriving DecidableEq, Repr

/-- One entry of the bounded performance-snapshot log
(src/services/gemini.ts, MetricsSnapshot). -/
structure MetricsSnapshot where
  timestamp : ℤ
  responseTime : ℚ
  isFraud : Bool
deriving DecidableEq, Repr, Inhabited

/-- A derived alert (src/types.ts, Alert). -/
structure Alert where
  id : String
  severity : Severity
  title : String
  description : String
  timestamp : ℤ
  related_transaction_id : Option String
deriving DecidableEq, Repr

/-- The aggregated dashboard summary returned by calculateMetrics. -/
structure DashboardMetrics where
  transactions_today : ℕ
  fraud_detected : ℕ
  detection_rate : ℚ
  legitimate_approved : ℕ
  pending_review : ℕ
  avg_response_time_ms : ℤ
  max_response_time_ms : ℚ
  p95_latency_ms : ℤ
  p99_latency_ms : ℤ
  throughput_txn_per_sec : ℚ
  model_accuracy : ℚ
  model_precision : ℚ
  model_recall : ℚ
  false_positive_rate : ℚ
  false_negative_rate : ℚ
  active_alerts : List Alert
  system_health : Health
deriving DecidableEq, Repr

/-! ### JavaScript primitives -/

/-- JS Math.round: round half toward positive infinity. -/
def jsRound (q : ℚ) : ℤ :=
  Rat.floor (q + mkRat 1 2)

/-- ASCII lower-casing of one character (the only case conversion the
repository data exercises). -/
def asciiLower (c : Char) : Char :=
  if 65 ≤ c.toNat ∧ c.toNat ≤ 90 then Char.ofNat (c.toNat + 32) else c

/-- Character-list model of String.prototype.toLowerCase. -/
def lowerData (s : String) : List Char :=
  s.data.map asciiLower

/-- Whether the first list is an initial segment of the second. -/
def prefixOfChars : List Char → List Char → Bool
  | [], _ => true
  | _ :: _, [] => false
  | a :: as, b :: bs => a == b && prefixOfChars as bs

/-- Whether needle occurs contiguously inside hay
(String.prototype.includes on character lists). -/
def containsChars (needle : List Char) : List Char → Bool
  | [] => needle.isEmpty
  | b :: bs => prefixOfChars needle (b :: bs) || containsChars needle bs

/-- Case-insensitive substring test: s.toLowerCase().includes(pat)
for an already-lowercase pattern pat. -/
def containsLower (s pat : String) : Bool :=
  containsChars pat.data (lowerData s)

/-! ### Metrics service (src/services/gemini.ts, metrics part) -/

/-- calculatePercentile (src/services/gemini.ts lines 237-243):
nearest-rank percentile with index ceil(n * p) - 1 clamped below at 0,
rounded to the nearest integer; 0 on the empty list. -/
def calculatePercentile (values : List ℚ) (percentile : ℚ) : ℤ :=
  if values = [] then 0
  else
    let sorted := List.insertionSort (· ≤ ·) values
    let index : ℤ := Rat.ceil ((sorted.length : ℚ) * percentile) - 1
    jsRound (sorted.getD (max 0 index).toNat 0)

/-- toFixed(2) followed by Number(), modelled as exact rounding to two
decimal places. -/
def roundTo2 (q : ℚ) : ℚ :=
  (jsRound (q * 100) : ℚ) / 100

/-- calculateThroughput (src/services/gemini.ts lines 248-256). -/
def calculateThroughput (metricsHistory : List MetricsSnapshot) : ℚ :=
  if metricsHistory.length < 2 then 0
  else
    let sorted := List.insertionSort (fun a b => a.timestamp ≤ b.timestamp) metricsHistory
    let timespanSeconds := ((sorted.getLastD default).timestamp - (sorted.headD default).timestamp : ℚ) / 1000
    if timespanSeconds = 0 then 0
    else roundTo2 ((metricsHistory.length : ℚ) / timespanSeconds)

/-- Number of alerts with severity CRITICAL. -/
def countCriticalAlerts (alerts : List Alert) : ℕ :=
  (alerts.filter (fun a => a.severity == Severity.CRITICAL)).length

/-- determineSystemHealth (src/services/gemini.ts lines 261-290):
priority-ordered health classification, first match wins. -/
def determineSystemHealth (detectionRate falsePositiveRate : ℚ)
    (avgResponseTime : ℤ) (alerts : List Alert) : Health :=
  if countCriticalAlerts alerts > 5 ∨ falsePositiveRate > mkRat 3 10 ∨
      avgResponseTime > 5000 ∨ detectionRate > mkRat 1 2 then
    Health.CRITICAL
  else if alerts.length > 10 ∨ falsePositiveRate > mkRat 15 100 ∨
      avgResponseTime > 2000 ∨ detectionRate > mkRat 3 10 then
    Health.WARNING
  else
    Health.NORMAL

/-- The fraud-case predicate of calculateMetrics:
riskLevel = CRITICAL or status = BLOCKED. -/
def isFraudCase (t : Transaction) : Bool :=
  t.riskLevel == RiskLevel.CRITICAL || t.status == TxStatus.BLOCKED

/-- JS clamp Math.max(0, Math.min(1, q)). -/
def clamp01 (q : ℚ) : ℚ :=
  max 0 (min 1 q)

/-- calculateMetrics (src/services/gemini.ts lines 143-232): full
recomputation of the dashboard summary from transactions, the snapshot
log and the current alert list. -/
def calculateMetrics (transactions : List Transaction)
    (metricsHistory : List MetricsSnapshot) (alerts : List Alert) :
    DashboardMetrics :=
  let fraudCases := transactions.filter isFraudCase
  let approvedCases := transactions.filter (fun t => t.status == TxStatus.ALLOWED)
  let pendingCases := transactions.filter
    (fun t => t.status == TxStatus.PENDING || t.status == TxStatus.ANALYZING)
  let detectionRate : ℚ :=
    if transactions.length > 0 then
      (fraudCases.length : ℚ) / (transactions.length : ℚ)
    else 0
  let responseTimes := metricsHistory.map (fun m => m.responseTime)
  let avgResponseTime : ℤ :=
    if responseTimes.length > 0 then
      jsRound ((responseTimes.foldl (· + ·) 0) / (responseTimes.length : ℚ))
    else 0
  let maxResponseTime : ℚ :=
    match responseTimes with
    | [] => 0
    | x :: xs => xs.foldl max x
  let p95Latency := calculatePercentile responseTimes (mkRat 95 100)
  let p99Latency := calculatePercentile responseTimes (mkRat 99 100)
  let throughput := calculateThroughput metricsHistory
  let fraudDetected := fraudCases.length
  let truePositives := (fraudCases.filter (fun t => t.status == TxStatus.BLOCKED)).length
  let falsePositives := (fraudCases.filter (fun t => t.status == TxStatus.ALLOWED)).length
  let falseNegatives := (approvedCases.filter (fun t => t.riskLevel == RiskLevel.CRITICAL)).length
  let trueNegatives := (approvedCases.filter (fun t => t.riskLevel == RiskLevel.LOW)).length
  let precision : ℚ :=
    if truePositives + falsePositives > 0 then
      (truePositives : ℚ) / ((truePositives : ℚ) + (falsePositives : ℚ))
    else 0
  let recallRate : ℚ :=
    if truePositives + falseNegatives > 0 then
      (truePositives : ℚ) / ((truePositives : ℚ) + (falseNegatives : ℚ))
    else 0
  let accuracy : ℚ :=
    if transactions.length > 0 then
      ((truePositives : ℚ) + (trueNegatives : ℚ)) / (transactions.length : ℚ)
    else 0
  let falsePositiveRate : ℚ :=
    if falsePositives + trueNegatives > 0 then
      (falsePositives : ℚ) / ((falsePositives : ℚ) + (trueNegatives : ℚ))
    else 0
  let falseNegativeRate : ℚ :=
    if falseNegatives + truePositives > 0 then
      (falseNegatives : ℚ) / ((falseNegatives : ℚ) + (truePositives : ℚ))
    else 0
  let systemHealth := determineSystemHealth detectionRate falsePositiveRate
    avgResponseTime alerts
  { transactions_today := transactions.length
    fraud_detected := fraudDetected
    detection_rate := detectionRate
    legitimate_approved := approvedCases.length
    pending_review := pendingCases.length
    avg_response_time_ms := avgResponseTime
    max_response_time_ms := maxResponseTime
    p95_latency_ms := p95Latency
    p99_latency_ms := p99Latency
    throughput_txn_per_sec := throughput
    model_accuracy := clamp01 accuracy
    model_precision := clamp01 precision
    model_recall := clamp01 recallRate
    false_positive_rate := clamp01 falsePositiveRate
    false_negative_rate := clamp01 falseNegativeRate
    active_alerts := alerts
    system_health := systemHealth }

/-- recordMetricsSnapshot (src/services/gemini.ts lines 399-419): append
one snapshot taken now, then keep only the most recent maxHistorySize
entries. -/
def recordMetricsSnapshot (history : List MetricsSnapshot)
    (responseTime : ℚ) (isFraud : Bool) (now : ℤ)
    (maxHistorySize : ℕ) : List MetricsSnapshot :=
  let snapshot : MetricsSnapshot :=
    { timestamp := now, responseTime := responseTime, isFraud := isFraud }
  let updated := history ++ [snapshot]
  if updated.length > maxHistorySize then
    updated.drop (updated.length - maxHistorySize)
  else
    updated

/-! ### Alert generator (src/services/gemini.ts lines 295-394) -/

/-- The fields of Partial DashboardMetrics that generateAlerts reads;
absent fields fall back to 0 through the JS expression metrics.x or 0. -/
structure PartialMetrics where
  detection_rate : Option ℚ
  false_positive_rate : Option ℚ
  avg_response_time_ms : Option ℤ
deriving DecidableEq, Repr

/-- Severity rank used by the alert sort comparator:
CRITICAL = 0, WARNING = 1, INFO = 2. -/
def severityRank : Severity → ℕ
  | Severity.CRITICAL => 0
  | Severity.WARNING => 1
  | Severity.INFO => 2

/-- The total preorder induced by the alert sort comparator: ascending
severity rank, then descending timestamp. -/
def alertLE (a b : Alert) : Prop :=
  severityRank a.severity < severityRank b.severity ∨
    (severityRank a.severity = severityRank b.severity ∧ b.timestamp ≤ a.timestamp)

instance : DecidableRel alertLE := fun a b =>
  decidable_of_iff
    (severityRank a.severity < severityRank b.severity ∨
      (severityRank a.severity = severityRank b.severity ∧ b.timestamp ≤ a.timestamp))
    Iff.rfl

instance : IsTotal Alert alertLE := by
  constructor
  intro a b
  unfold alertLE
  omega

instance : IsTrans Alert alertLE := by
  constructor
  intro a b c hab hbc
  unfold alertLE at *
  omega

/-- Rule 1: elevated fraud detection rate (detection_rate > 0.1). -/
def highFraudAlert (detectionRate : ℚ) (now : ℤ) : List Alert :=
  if detectionRate > mkRat 1 10 then
    [{ id := "ALERT_HIGH_FRAUD_" ++ toString now
       severity := if detectionRate > mkRat 2 10 then Severity.CRITICAL else Severity.WARNING
       title := "Elevated Fraud Detection Rate"
       description := toString (detectionRate * 100) ++
         "% of transactions flagged as suspicious in the last hour"
       timestamp := now
       related_transaction_id := none }]
  else []

/-- Rule 2: high false positive rate (false_positive_rate > 0.2). -/
def falsePosAlert (falsePositiveRate : ℚ) (now : ℤ) : List Alert :=
  if falsePositiveRate > mkRat 2 10 then
    [{ id := "ALERT_FALSE_POS_" ++ toString now
       severity := Severity.WARNING
       title := "High False Positive Rate"
       description := "Model incorrectly flagging " ++ toString (falsePositiveRate * 100) ++
         "% of legitimate transactions"
       timestamp := now - 300000
       related_transaction_id := none }]
  else []

/-- Rule 3: performance degradation (avg_response_time_ms > 3000). -/
def performanceAlert (avgResponseTime : ℤ) (now : ℤ) : List Alert :=
  if avgResponseTime > 3000 then
    [{ id := "ALERT_PERFORMANCE_" ++ toString now
       severity := if avgResponseTime > 5000 then Severity.CRITICAL else Severity.WARNING
       title := "System Performance Degradation"
       description := "Average response time is " ++ toString avgResponseTime ++
         "ms. Consider scaling infrastructure."
       timestamp := now - 600000
       related_transaction_id := none }]
  else []

/-- Rule 4: first transaction with riskLevel CRITICAL and amount above 10000. -/
def highValueAlert (transactions : List Transaction) (now : ℤ) : List Alert :=
  match transactions.find? (fun t =>
      t.riskLevel == RiskLevel.CRITICAL && decide (t.amount > 10000)) with
  | some t =>
    [{ id := "ALERT_HIGH_VALUE_" ++ toString now
       severity := Severity.CRITICAL
       title := "High-Value Fraud Detected"
       description := "Critical risk transaction of $" ++ toString t.amount ++
         " detected at " ++ t.merchant
       timestamp := now
       related_transaction_id := some t.id }]
  | none => []

/-- Rule 5: first transaction whose merchant name contains crypto, wire or
transfer, case-insensitively. -/
def merchantRiskAlert (transactions : List Transaction) (now : ℤ) : List Alert :=
  match transactions.find? (fun t =>
      containsLower t.merchant "crypto" || containsLower t.merchant "wire" ||
        containsLower t.merchant "transfer") with
  | some t =>
    [{ id := "ALERT_MERCHANT_RISK_" ++ toString now
       severity := Severity.WARNING
       title := "High-Risk Merchant Activity"
       description := "Transaction with high-risk merchant category detected: " ++ t.merchant
       timestamp := now - 1200000
       related_transaction_id := some t.id }]
  | none => []

/-- Rule 6: at least 5 of the 10 most recent transactions present. -/
def velocityAlert (transactions : List Transaction) (now : ℤ) : List Alert :=
  let recentTransactions := transactions.take 10
  if recentTransactions.length ≥ 5 then
    [{ id := "ALERT_VELOCITY_" ++ toString now
       severity := Severity.WARNING
       title := "Abnormal Transaction Velocity"
       description := toString recentTransactions.length ++
         " transactions in the last few minutes. Possible account compromise."
       timestamp := now - 180000
       related_transaction_id := none }]
  else []

/-- The alerts pushed by the six independent rules, in push order. -/
def rawAlerts (transactions : List Transaction) (metrics : PartialMetrics)
    (now : ℤ) : List Alert :=
  highFraudAlert (metrics.detection_rate.getD 0) now ++
    falsePosAlert (metrics.false_positive_rate.getD 0) now ++
    performanceAlert (metrics.avg_response_time_ms.getD 0) now ++
    highValueAlert transactions now ++
    merchantRiskAlert transactions now ++
    velocityAlert transactions now

/-- generateAlerts (src/services/gemini.ts lines 295-394): run the six
rules, then sort by severity rank ascending and timestamp descending. -/
def generateAlerts (transactions : List Transaction) (metrics : PartialMetrics)
    (now : ℤ) : List Alert :=
  List.insertionSort alertLE (rawAlerts transactions metrics now)

/-! ### App-level list maintenance (src/unnamed/part_000) -/

/-- The periodic pipeline append (src/unnamed/part_000 line 59):
setTransactions(prev => [newTx, ...prev].slice(0, 50)). -/
def pipelineAppend (newTx : Transaction) (prev : List Transaction) :
    List Transaction :=
  (newTx :: prev).take 50

/-- The manual fraud-injection append (src/unnamed/part_000 line 83):
setTransactions(prev => [newTx, ...prev]), with no truncation. -/
def triggerFraudAppend (newTx : Transaction) (prev : List Transaction) :
    List Transaction :=
  newTx :: prev

/-- The case record built by handleAddToKnowledgeBase
(src/unnamed/part_000 lines 91-97). The notes argument of the handler is
not used in the record. -/
def newCaseFor (tx : Transaction) : FraudCase :=
  { id := "CASE_" ++ tx.id
    narrative := tx.narrative
    merchant := tx.merchant
    type := "Confirmed Fraud (Analyst Feedback)"
    vectorId := some "pending_vectorization" }

/-- handleAddToKnowledgeBase (src/unnamed/part_000 lines 90-104):
append the derived case at the end of the knowledge base. -/
def addCaseToKnowledgeBase (kb : List FraudCase) (tx : Transaction)
    (_notes : String) : List FraudCase :=
  kb ++ [newCaseFor tx]

/-! ### Document store (src/services/documentStore.ts) -/

/-- A per-customer compliance policy. -/
structure CustomerPolicy where
  id : String
  user_id : String
  daily_limit : ℚ
  monthly_limit : ℚ
  requires_approval_above : ℚ
  allowed_countries : List String
  blocked_countries : List String
  max_transactions_per_day : ℕ
  risk_tier : String
  compliance_status : String
deriving DecidableEq, Repr

/-- The static customer policy table (src/services/documentStore.ts
lines 239-288). -/
def customerPolicies : List CustomerPolicy :=
  [{ id := "CUST_POL_001", user_id := "USER_VIP_001",
     daily_limit := 100000, monthly_limit := 1000000,
     requires_approval_above := 50000,
     allowed_countries := ["US", "UK", "CA", "AU", "SG"],
     blocked_countries := ["KP", "IR", "SY"],
     max_transactions_per_day := 100, risk_tier := "LOW",
     compliance_status := "VERIFIED_KYC" },
   { id := "CUST_POL_002", user_id := "USER_STANDARD_001",
     daily_limit := 10000, monthly_limit := 50000,
     requires_approval_above := 5000,
     allowed_countries := ["US", "CA", "UK"],
     blocked_countries := ["KP", "IR", "SY", "CU"],
     max_transactions_per_day := 20, risk_tier := "MEDIUM",
     compliance_status := "VERIFIED_KYC" },
   { id := "CUST_POL_003", user_id := "USER_NEW_001",
     daily_limit := 2000, monthly_limit := 10000,
     requires_approval_above := 1000,
     allowed_countries := ["US"],
     blocked_countries := ["KP", "IR", "SY", "CU", "VE"],
     max_transactions_per_day := 5, risk_tier := "HIGH",
     compliance_status := "PENDING_KYC" },
   { id := "CUST_POL_004", user_id := "USER_SUSPENDED_001",
     daily_limit := 0, monthly_limit := 0,
     requires_approval_above := 0,
     allowed_countries := [],
     blocked_countries := ["*"],
     max_transactions_per_day := 0, risk_tier := "HIGH",
     compliance_status := "FAILED_KYC" }]

/-- getCustomerPolicy (src/services/documentStore.ts lines 374-376). -/
def getCustomerPolicy (userId : String) : Option CustomerPolicy :=
  customerPolicies.find? (fun p => p.user_id == userId)

/-- The daily-limit violation message. -/
def dailyLimitMsg (p : CustomerPolicy) : String :=
  "Exceeds daily limit of $" ++ toString p.daily_limit

/-- The blocked-country violation message. -/
def blockedCountryMsg (country : String) : String :=
  "Transaction to blocked country: " ++ country

/-- The not-in-allowed-list violation message. -/
def notAllowedMsg (country : String) : String :=
  "Country " ++ country ++ " not in allowed list"

/-- The failed-KYC violation message. -/
def kycMsg : String :=
  "Customer failed KYC verification"

/-- The result type of checkPolicyCompliance. -/
structure ComplianceResult where
  compliant : Bool
  violations : List String
deriving DecidableEq, Repr

/-- The policy-level body of checkPolicyCompliance
(src/services/documentStore.ts lines 391-416): the four violation rules
evaluated independently, in order, with no short-circuit. -/
def checkCompliancePolicy (policy : CustomerPolicy) (amount : ℚ)
    (country : String) : ComplianceResult :=
  let violations : List String :=
    (if amount > policy.daily_limit then [dailyLimitMsg policy] else []) ++
      (if country ∈ policy.blocked_countries then [blockedCountryMsg country] else []) ++
      (if policy.allowed_countries.length > 0 ∧ country ∉ policy.allowed_countries then
        [notAllowedMsg country] else []) ++
      (if policy.compliance_status = "FAILED_KYC" then [kycMsg] else [])
  { compliant := violations.isEmpty, violations := violations }

/-- checkPolicyCompliance (src/services/documentStore.ts lines 381-416):
look the policy up by user id, then apply the four rules. -/
def checkPolicyCompliance (userId : String) (amount : ℚ)
    (country : String) : ComplianceResult :=
  match getCustomerPolicy userId with
  | none => { compliant := false, violations := ["Customer policy not found"] }
  | some policy => checkCompliancePolicy policy amount country

/-! ### Risk scorer (spec section 4.1) -/

/-- Forced anomaly kinds accepted by the scorer. -/
inductive ForcedType where
  | BEHAVIORAL
  | SIGNATURE
deriving DecidableEq, Repr

/-- Scorer failure taxonomy (spec section 7): empty history is the fatal
InvalidProfile precondition. -/
inductive ScoreError where
  | invalidProfile
deriving DecidableEq, Repr

/-- One draw of the pluggable random source the spec prescribes for
deterministic testing (spec section 9). -/
structure RandSource where
  amountDraw : ℚ
  anomalous : Bool
  anomalyMagnitude : ℚ
  sigDraw : ℚ
  coincidental : Bool
  velocityDraw : ℚ
  caseIndex : ℕ
deriving DecidableEq, Repr

/-- The ordered riskLevel decision table (spec section 4.1 step 5):
CRITICAL if abs zScore > 3 or signature score at least 0.85, else MEDIUM
if abs zScore > 1.5 or signature score at least 0.5, else LOW. -/
def computeRiskLevel (zScore signatureMatchScore : ℚ) : RiskLevel :=
  if |zScore| > 3 ∨ signatureMatchScore ≥ mkRat 85 100 then RiskLevel.CRITICAL
  else if |zScore| > mkRat 3 2 ∨ signatureMatchScore ≥ mkRat 1 2 then RiskLevel.MEDIUM
  else RiskLevel.LOW

/-- Modelled from the spec: generateTransaction of
src/services/simulation.ts, which is not part of the provided sources
(only its callers in src/unnamed/part_000 are). Follows spec section 4.1:
requires a non-empty profile history, draws an amount (forced BEHAVIORAL
amounts sit several standard deviations above the mean; forced SIGNATURE
copies narrative and merchant from a knowledge-base entry), computes
zScore = (amount - mean) / max(stdDev, eps), attaches a signature match
score (at least 0.85 with the matched case id under forced SIGNATURE,
otherwise a background score), a bounded velocity score, the riskLevel
decision table, and status PENDING. -/
def generateTransaction (profile : UserProfile) (knowledgeBase : List FraudCase)
    (forcedType : Option ForcedType) (rnd : RandSource) (now : ℤ) :
    Except ScoreError Transaction :=
  if profile.history = [] then Except.error ScoreError.invalidProfile
  else
    let chosenCase := knowledgeBase.getD (rnd.caseIndex % knowledgeBase.length)
      { id := "", narrative := "", merchant := "", type := "", vectorId := none }
    let amount : ℚ :=
      match forcedType with
      | some ForcedType.BEHAVIORAL =>
        profile.mean + (4 + max rnd.anomalyMagnitude 0) * profile.stdDev
      | some ForcedType.SIGNATURE => max rnd.amountDraw 0
      | none =>
        if rnd.anomalous then
          profile.mean + (4 + max rnd.anomalyMagnitude 0) * profile.stdDev
        else max rnd.amountDraw 0
    let eps : ℚ := mkRat 1 100
    let zScore := (amount - profile.mean) / max profile.stdDev eps
    let backgroundScore : ℚ :=
      if rnd.coincidental ∧ knowledgeBase ≠ [] then
        min (max rnd.sigDraw (mkRat 1 2)) (mkRat 84 100)
      else min (max rnd.sigDraw 0) (mkRat 49 100)
    let signatureMatchScore : ℚ :=
      match forcedType with
      | some ForcedType.SIGNATURE => max rnd.sigDraw (mkRat 85 100)
      | _ => backgroundScore
    let matchedCaseId : Option String :=
      match forcedType with
      | some ForcedType.SIGNATURE => some chosenCase.id
      | _ =>
        if rnd.coincidental ∧ knowledgeBase ≠ [] then some chosenCase.id else none
    let narrative : String :=
      match forcedType with
      | some ForcedType.SIGNATURE => chosenCase.narrative
      | _ => "Standard purchase"
    let merchant : String :=
      match forcedType with
      | some ForcedType.SIGNATURE => chosenCase.merchant
      | _ => "QuickMart Retail"
    Except.ok
      { id := "TX" ++ toString now
        timestamp := now
        amount := amount
        merchant := merchant
        merchantId := "MERCH_001"
        narrative := narrative
        location := "US"
        ip := "10.0.0.1"
        zScore := zScore
        velocityScore := min (max rnd.velocityDraw 0) 1
        signatureMatchScore := signatureMatchScore
        matchedCaseId := matchedCaseId
        riskLevel := computeRiskLevel zScore signatureMatchScore
        status := TxStatus.PENDING }

/-! ### Bridging lemmas for the JS primitives -/

/-- The executable rational floor agrees with the mathematical floor. -/
theorem ratFloor_eq_floor (q : ℚ) : Rat.floor q = ⌊q⌋ := by
  rw [Rat.floor_def', Rat.floor_def]

/-- When the denominator does not divide the numerator, negating the
dividend flips and shifts the euclidean quotient. -/
theorem neg_ediv_of_not_dvd {n d : ℤ} (hd : 0 < d) (hndvd : ¬ d ∣ n) :
    (-n) / d = -(n / d) - 1 := by
  have h2 := Int.ediv_add_emod n d
  have h3 := Int.emod_nonneg n (ne_of_gt hd)
  have h4 := Int.emod_lt_of_pos n hd
  have h5 : n % d ≠ 0 := fun h => hndvd (Int.dvd_of_emod_eq_zero h)
  have key := (Int.ediv_emod_unique (a := -n) (b := d)
    (q := -(n / d) - 1) (r := d - n % d) hd).2 ⟨by ring_nf; ring_nf at h2; linarith, by omega, by omega⟩
  exact key.1

/-- The executable rational ceiling agrees with the mathematical ceiling. -/
theorem ratCeil_eq_ceil (q : ℚ) : Rat.ceil q = ⌈q⌉ := by
  have hfn : Rat.ceil q = -Rat.floor (-q) := by
    unfold Rat.ceil Rat.floor
    rw [Rat.neg_num, Rat.neg_den]
    by_cases hd : q.den = 1
    · simp [hd]
    · have hdpos : (0 : ℤ) < (q.den : ℤ) := Int.natCast_pos.mpr q.den_pos
      have hndvd : ¬ ((q.den : ℤ) ∣ q.num) := by
        intro hdvd
        have h1 : q.den ∣ q.num.natAbs := Int.natCast_dvd.mp hdvd
        have h2 : q.den ∣ Nat.gcd q.num.natAbs q.den := Nat.dvd_gcd h1 dvd_rfl
        rw [q.reduced] at h2
        exact hd (Nat.dvd_one.mp h2)
      simp only [hd, if_false]
      rw [neg_ediv_of_not_dvd hdpos hndvd]
      ring
  rw [hfn, ratFloor_eq_floor, Int.floor_neg, neg_neg]

/-- jsRound is rounding to the nearest integer (Mathlib round). -/
theorem jsRound_eq_round (q : ℚ) : jsRound q = round q := by
  have h : (mkRat 1 2 : ℚ) = 1 / 2 := by norm_num [mkRat, Rat.normalize]
  rw [jsRound, ratFloor_eq_floor, h, round_eq]

/-! ### C1 -/

/-- Sample inputs exercising the scorer on a concrete profile. -/
def sampleProfile : UserProfile :=
  { history := [10], mean := 10, stdDev := 0 }

/-- A fixed draw of the random source. -/
def sampleRand : RandSource :=
  { amountDraw := 10, anomalous := false, anomalyMagnitude := 0,
    sigDraw := 0, coincidental := false, velocityDraw := 0, caseIndex := 0 }

/-- The transaction the scorer returns on the sample inputs. -/
def sampleScored : Transaction :=
  { id := "TX" ++ toString (0 : ℤ)
    timestamp := 0
    amount := max (10 : ℚ) 0
    merchant := "QuickMart Retail"
    merchantId := "MERCH_001"
    narrative := "Standard purchase"
    location := "US"
    ip := "10.0.0.1"
    zScore := (max (10 : ℚ) 0 - 10) / max (0 : ℚ) (mkRat 1 100)
    velocityScore := min (max (0 : ℚ) 0) 1
    signatureMatchScore := min (max (0 : ℚ) 0) (mkRat 49 100)
    matchedCaseId := none
    riskLevel := computeRiskLevel ((max (10 : ℚ) 0 - 10) / max (0 : ℚ) (mkRat 1 100))
      (min (max (0 : ℚ) 0) (mkRat 49 100))
    status := TxStatus.PENDING }

/-- C1: every transaction the scorer returns carries a riskLevel equal to
the ordered decision table of spec section 4.1 applied to the zScore and
signatureMatchScore fields of that same transaction (CRITICAL if
abs zScore > 3 or signatureMatchScore at least 0.85, else MEDIUM if
abs zScore > 1.5 or signatureMatchScore at least 0.5, else LOW), and its
status is initialized PENDING. -/
theorem generateTransaction_riskLevel_consistent
    (profile : UserProfile) (kb : List FraudCase) (forcedType : Option ForcedType)
    (rnd : RandSource) (now : ℤ) (t : Transaction)
    (h : generateTransaction profile kb forcedType rnd now = Except.ok t) :
    t.riskLevel =
      (if |t.zScore| > 3 ∨ t.signatureMatchScore ≥ mkRat 85 100 then RiskLevel.CRITICAL
       else if |t.zScore| > mkRat 3 2 ∨ t.signatureMatchScore ≥ mkRat 1 2 then RiskLevel.MEDIUM
       else RiskLevel.LOW) ∧
      t.status = TxStatus.PENDING := by
  unfold generateTransaction at h
  split at h
  · exact absurd h (by simp)
  · rw [Except.ok.injEq] at h
    subst h
    exact ⟨rfl, rfl⟩

/-- Witness for C1: the scorer succeeds on the sample profile and the
returned transaction satisfies the decision-table consistency. -/
theorem generateTransaction_riskLevel_consistent_witness :
    generateTransaction sampleProfile [] none sampleRand 0 = Except.ok sampleScored ∧
      (sampleScored.riskLevel =
        (if |sampleScored.zScore| > 3 ∨ sampleScored.signatureMatchScore ≥ mkRat 85 100 then
          RiskLevel.CRITICAL
         else if |sampleScored.zScore| > mkRat 3 2 ∨ sampleScored.signatureMatchScore ≥ mkRat 1 2 then
          RiskLevel.MEDIUM
         else RiskLevel.LOW) ∧
        sampleScored.status = TxStatus.PENDING) :=
  ⟨rfl, generateTransaction_riskLevel_consistent sampleProfile [] none sampleRand 0
    sampleScored rfl⟩

/-! ### C4 -/

/-- C4: the health classifier returns CRITICAL exactly on the critical
tier conditions, WARNING exactly when no critical condition but a
warning condition holds, and NORMAL otherwise — first matching tier
wins. -/
theorem determineSystemHealth_spec (dr fpr : ℚ) (lat : ℤ) (alerts : List Alert) :
    (determineSystemHealth dr fpr lat alerts = Health.CRITICAL ↔
      (countCriticalAlerts alerts > 5 ∨ fpr > mkRat 3 10 ∨ lat > 5000 ∨ dr > mkRat 1 2)) ∧
    (determineSystemHealth dr fpr lat alerts = Health.WARNING ↔
      (¬(countCriticalAlerts alerts > 5 ∨ fpr > mkRat 3 10 ∨ lat > 5000 ∨ dr > mkRat 1 2) ∧
        (alerts.length > 10 ∨ fpr > mkRat 15 100 ∨ lat > 2000 ∨ dr > mkRat 3 10))) ∧
    (determineSystemHealth dr fpr lat alerts = Health.NORMAL ↔
      (¬(countCriticalAlerts alerts > 5 ∨ fpr > mkRat 3 10 ∨ lat > 5000 ∨ dr > mkRat 1 2) ∧
        ¬(alerts.length > 10 ∨ fpr > mkRat 15 100 ∨ lat > 2000 ∨ dr > mkRat 3 10))) := by
  unfold determineSystemHealth
  split_ifs with h1 h2 <;> simp_all

/-! ### C5 -/

/-- A minimal low-risk transaction literal for concrete evaluations. -/
def txLOW : Transaction :=
  { id := "T1", timestamp := 0, amount := 10, merchant := "QuickMart Retail",
    merchantId := "MERCH_001", narrative := "Standard purchase",
    location := "US", ip := "10.0.0.1", zScore := 0, velocityScore := 0,
    signatureMatchScore := 0, matchedCaseId := none,
    riskLevel := RiskLevel.LOW, status := TxStatus.PENDING }

/-- Counterexample to C5: the manually triggered fraud-injection append
does not truncate, so appending to a 50-element list yields 51 elements. -/
theorem triggerFraudAppend_exceeds_cap :
    50 < (triggerFraudAppend txLOW (List.replicate 50 txLOW)).length := by
  simp [triggerFraudAppend]

/-- C5 (amended): the periodic pipeline append keeps the list capped at
the 50 most recent transactions, evicting the oldest (the dropped
elements are exactly the tail beyond position 50), but the manually
triggered fraud-injection append grows the list by one without
truncation. -/
theorem transaction_list_cap (tx : Transaction) (prev : List Transaction) :
    (pipelineAppend tx prev).length = min (prev.length + 1) 50 ∧
    pipelineAppend tx prev ++ (tx :: prev).drop 50 = tx :: prev ∧
    (triggerFraudAppend tx prev).length = prev.length + 1 := by
  refine ⟨?_, ?_, ?_⟩
  · simp only [pipelineAppend, List.length_take, List.length_cons]
    omega
  · simp [pipelineAppend, List.take_append_drop]
  · simp [triggerFraudAppend]

/-! ### C8 -/

/-- C8: recordMetricsSnapshot appends one entry carrying the response
time, fraud flag and current time at the end, drops the oldest entries
beyond the capacity, and returns a list of length
min(old length + 1, 1000). -/
theorem recordMetricsSnapshot_spec (history : List MetricsSnapshot)
    (rt : ℚ) (fraud : Bool) (now : ℤ) :
    (recordMetricsSnapshot history rt fraud now 1000).length =
      min (history.length + 1) 1000 ∧
    recordMetricsSnapshot history rt fraud now 1000 =
      (history ++ [({ timestamp := now, responseTime := rt, isFraud := fraud } :
        MetricsSnapshot)]).drop (history.length + 1 - 1000) ∧
    (recordMetricsSnapshot history rt fraud now 1000).getLast? =
      some { timestamp := now, responseTime := rt, isFraud := fraud } := by
  unfold recordMetricsSnapshot
  simp only [List.length_append, List.length_cons, List.length_nil]
  split
  · next hgt =>
    refine ⟨?_, ?_, ?_⟩
    · simp; omega
    · simp
    · rw [List.drop_append_of_le_length (by omega)]
      exact List.getLast?_concat _
  · next hle =>
    refine ⟨?_, ?_, ?_⟩
    · simp; omega
    · have hz : history.length + 1 - 1000 = 0 := by omega
      simp [hz]
    · exact List.getLast?_concat _

/-! ### C2 -/

/-- A copy of txLOW with the given id, risk level and status. -/
def mkTx (n : String) (rl : RiskLevel) (st : TxStatus) : Transaction :=
  { txLOW with id := n, riskLevel := rl, status := st }

/-- Ten transactions: exactly three are CRITICAL and BLOCKED, the other
seven are LOW and PENDING (so neither CRITICAL nor BLOCKED). -/
def sampleTen : List Transaction :=
  [mkTx "F1" RiskLevel.CRITICAL TxStatus.BLOCKED,
   mkTx "F2" RiskLevel.CRITICAL TxStatus.BLOCKED,
   mkTx "F3" RiskLevel.CRITICAL TxStatus.BLOCKED,
   mkTx "N1" RiskLevel.LOW TxStatus.PENDING,
   mkTx "N2" RiskLevel.LOW TxStatus.PENDING,
   mkTx "N3" RiskLevel.LOW TxStatus.PENDING,
   mkTx "N4" RiskLevel.LOW TxStatus.PENDING,
   mkTx "N5" RiskLevel.LOW TxStatus.PENDING,
   mkTx "N6" RiskLevel.LOW TxStatus.PENDING,
   mkTx "N7" RiskLevel.LOW TxStatus.PENDING]

/-- C2: detection_rate is the number of transactions that are CRITICAL or
BLOCKED divided by the total count (0 on the empty list), it is invariant
under permutations of the transaction list, and on ten transactions of
which exactly three are CRITICAL and BLOCKED it equals 0.3. -/
theorem calculateMetrics_detection_rate (ts ts' : List Transaction)
    (snaps : List MetricsSnapshot) (alerts : List Alert)
    (hperm : ts.Perm ts') :
    (calculateMetrics ts snaps alerts).detection_rate =
      (if ts.length > 0 then (ts.countP isFraudCase : ℚ) / (ts.length : ℚ) else 0) ∧
    (calculateMetrics ts snaps alerts).detection_rate =
      (calculateMetrics ts' snaps alerts).detection_rate ∧
    (calculateMetrics [] snaps alerts).detection_rate = 0 ∧
    (calculateMetrics sampleTen [] []).detection_rate = 0.3 := by
  refine ⟨?_, ?_, ?_, ?_⟩
  · simp [calculateMetrics, List.countP_eq_length_filter]
  · simp only [calculateMetrics, ← List.countP_eq_length_filter,
      hperm.countP_eq, hperm.length_eq]
  · simp [calculateMetrics]
  · rw [show (calculateMetrics sampleTen [] []).detection_rate = (3 : ℚ) / 10 from rfl]
    norm_num

/-- Witness for C2: permutation invariance applied to a concrete
two-element reordering. -/
theorem calculateMetrics_detection_rate_witness :
    (calculateMetrics [mkTx "A" RiskLevel.CRITICAL TxStatus.BLOCKED, txLOW] [] []).detection_rate =
      (calculateMetrics [txLOW, mkTx "A" RiskLevel.CRITICAL TxStatus.BLOCKED] [] []).detection_rate :=
  (calculateMetrics_detection_rate
    [mkTx "A" RiskLevel.CRITICAL TxStatus.BLOCKED, txLOW]
    [txLOW, mkTx "A" RiskLevel.CRITICAL TxStatus.BLOCKED] [] [] (by decide)).2.1

/-! ### C6 -/

/-- The suspended-customer policy (CUST_POL_004): daily limit 0. -/
def suspendedPolicy : CustomerPolicy :=
  { id := "CUST_POL_004", user_id := "USER_SUSPENDED_001",
    daily_limit := 0, monthly_limit := 0, requires_approval_above := 0,
    allowed_countries := [], blocked_countries := ["*"],
    max_transactions_per_day := 0, risk_tier := "HIGH",
    compliance_status := "FAILED_KYC" }

/-- C6: the four violation rules are evaluated independently and all
applicable violations are collected; compliant holds exactly when no rule
fires, equivalently when the violations list is empty; and for the
daily-limit-0 policy with amount 1 the check fails with the daily-limit
violation present. -/
theorem checkCompliance_spec (p : CustomerPolicy) (amount : ℚ) (country : String) :
    ((checkCompliancePolicy p amount country).compliant = true ↔
      ¬ (amount > p.daily_limit) ∧ country ∉ p.blocked_countries ∧
        ¬ (p.allowed_countries.length > 0 ∧ country ∉ p.allowed_countries) ∧
        p.compliance_status ≠ "FAILED_KYC") ∧
    ((checkCompliancePolicy p amount country).compliant = true ↔
      (checkCompliancePolicy p amount country).violations = []) ∧
    (amount > p.daily_limit →
      dailyLimitMsg p ∈ (checkCompliancePolicy p amount country).violations) ∧
    (country ∈ p.blocked_countries →
      blockedCountryMsg country ∈ (checkCompliancePolicy p amount country).violations) ∧
    (p.allowed_countries.length > 0 ∧ country ∉ p.allowed_countries →
      notAllowedMsg country ∈ (checkCompliancePolicy p amount country).violations) ∧
    (p.compliance_status = "FAILED_KYC" →
      kycMsg ∈ (checkCompliancePolicy p amount country).violations) ∧
    ((checkPolicyCompliance "USER_SUSPENDED_001" 1 "US").compliant = false ∧
      "Exceeds daily limit of $0" ∈
        (checkPolicyCompliance "USER_SUSPENDED_001" 1 "US").violations) := by
  refine ⟨?_, ?_, ?_, ?_, ?_, ?_, by decide, by decide⟩ <;>
    · unfold checkCompliancePolicy
      split_ifs <;> simp_all

/-- Witness for C6: the daily-limit rule fires on the suspended policy
with amount 1. -/
theorem checkCompliance_spec_witness :
    dailyLimitMsg suspendedPolicy ∈
      (checkCompliancePolicy suspendedPolicy 1 "US").violations :=
  (checkCompliance_spec suspendedPolicy 1 "US").2.2.1 (by decide)

/-! ### C7 -/

/-- Counterexample to C7: adding the same transaction twice duplicates the
derived case id, so the new id is not unique in the resulting knowledge
base. -/
theorem addCase_id_collision :
    ((addCaseToKnowledgeBase (addCaseToKnowledgeBase [] txLOW "") txLOW "").map
        FraudCase.id).count ("CASE_" ++ txLOW.id) = 2 ∧
      ¬ ((addCaseToKnowledgeBase (addCaseToKnowledgeBase [] txLOW "") txLOW "").map
        FraudCase.id).Nodup := by
  constructor
  · decide
  · decide

/-- C7 (amended): addCase appends exactly one new case at the end, leaves
every existing entry unchanged, derives the new id deterministically from
the transaction id, copies narrative and merchant from the transaction,
and — provided no existing case already carries the derived id (as when
the same transaction is added twice) — the new id is unique in the
resulting knowledge base. -/
theorem addCase_spec (kb : List FraudCase) (tx : Transaction) (notes : String)
    (h : ("CASE_" ++ tx.id) ∉ kb.map FraudCase.id) :
    (addCaseToKnowledgeBase kb tx notes).length = kb.length + 1 ∧
    (addCaseToKnowledgeBase kb tx notes).take kb.length = kb ∧
    addCaseToKnowledgeBase kb tx notes = kb ++ [newCaseFor tx] ∧
    (newCaseFor tx).id = "CASE_" ++ tx.id ∧
    (newCaseFor tx).narrative = tx.narrative ∧
    (newCaseFor tx).merchant = tx.merchant ∧
    ((addCaseToKnowledgeBase kb tx notes).map FraudCase.id).count ("CASE_" ++ tx.id) = 1 := by
  refine ⟨by simp [addCaseToKnowledgeBase], ?_, rfl, rfl, rfl, rfl, ?_⟩
  · simp [addCaseToKnowledgeBase, List.take_left]
  · simp only [addCaseToKnowledgeBase, List.map_append, List.map_cons, List.map_nil,
      List.count_append]
    rw [List.count_eq_zero_of_not_mem h]
    simp [newCaseFor]

/-- Witness for C7: on the empty knowledge base the derived id is fresh
and appears exactly once after the append. -/
theorem addCase_spec_witness :
    ((addCaseToKnowledgeBase [] txLOW "note").map FraudCase.id).count
      ("CASE_" ++ txLOW.id) = 1 :=
  (addCase_spec [] txLOW "note" (by decide)).2.2.2.2.2.2

/-! ### C3 -/

/-- On a nonempty value list and positive percentile, calculatePercentile
is exactly the unclamped nearest-rank formula: sort ascending, take the
element at index ceil(n * p) - 1, round to the nearest integer. -/
theorem calculatePercentile_nonempty (values : List ℚ) (p : ℚ)
    (hv : values ≠ []) (hp : 0 < p) :
    calculatePercentile values p =
      round ((List.insertionSort (· ≤ ·) values).getD
        (⌈(values.length : ℚ) * p⌉ - 1).toNat 0) := by
  have hlen : (List.insertionSort (· ≤ ·) values).length = values.length :=
    (List.perm_insertionSort _ _).length_eq
  have hlpos : 0 < values.length := List.length_pos.mpr hv
  have hcpos : 0 < ⌈(values.length : ℚ) * p⌉ :=
    Int.ceil_pos.mpr (mul_pos (by exact_mod_cast hlpos) hp)
  simp only [calculatePercentile, if_neg hv, ratCeil_eq_ceil, hlen,
    jsRound_eq_round]
  rw [max_eq_right (by omega)]

/-- C3: the p95 and p99 latency fields of calculateMetrics are the
nearest-rank percentiles of the snapshot response times (sort ascending,
index ceil(n * p) - 1, rounded to the nearest integer), both are 0 on an
empty snapshot log, and on the ten response times 10, 20, ..., 100 both
equal 100. -/
theorem calculateMetrics_percentiles (ts : List Transaction)
    (snaps : List MetricsSnapshot) (alerts : List Alert) (h : snaps ≠ []) :
    ((calculateMetrics ts snaps alerts).p95_latency_ms =
      round ((List.insertionSort (· ≤ ·) (snaps.map (fun m => m.responseTime))).getD
        (⌈(snaps.length : ℚ) * mkRat 95 100⌉ - 1).toNat 0)) ∧
    ((calculateMetrics ts snaps alerts).p99_latency_ms =
      round ((List.insertionSort (· ≤ ·) (snaps.map (fun m => m.responseTime))).getD
        (⌈(snaps.length : ℚ) * mkRat 99 100⌉ - 1).toNat 0)) ∧
    (calculateMetrics ts [] alerts).p95_latency_ms = 0 ∧
    (calculateMetrics ts [] alerts).p99_latency_ms = 0 ∧
    calculatePercentile [10, 20, 30, 40, 50, 60, 70, 80, 90, 100] (mkRat 95 100) = 100 ∧
    calculatePercentile [10, 20, 30, 40, 50, 60, 70, 80, 90, 100] (mkRat 99 100) = 100 := by
  have hmap : snaps.map (fun m => m.responseTime) ≠ [] := by
    simpa using h
  have hmaplen : (snaps.map (fun m => m.responseTime)).length = snaps.length :=
    List.length_map _ _
  have h95 : (0 : ℚ) < mkRat 95 100 := by rw [Rat.mkRat_eq_div]; norm_num
  have h99 : (0 : ℚ) < mkRat 99 100 := by rw [Rat.mkRat_eq_div]; norm_num
  refine ⟨?_, ?_, by simp [calculateMetrics, calculatePercentile],
    by simp [calculateMetrics, calculatePercentile], ?_, ?_⟩
  · show calculatePercentile (snaps.map (fun m => m.responseTime)) (mkRat 95 100) = _
    rw [calculatePercentile_nonempty _ _ hmap h95, hmaplen]
  · show calculatePercentile (snaps.map (fun m => m.responseTime)) (mkRat 99 100) = _
    rw [calculatePercentile_nonempty _ _ hmap h99, hmaplen]
  · rw [calculatePercentile_nonempty _ _ (by simp) h95]
    rw [show ⌈(([10, 20, 30, 40, 50, 60, 70, 80, 90, 100] : List ℚ).length : ℚ) *
        mkRat 95 100⌉ = 10 by rw [Rat.mkRat_eq_div]; rw [Int.ceil_eq_iff]; norm_num]
    rw [show ((10 : ℤ) - 1).toNat = 9 from rfl]
    norm_num [List.getD, round_ofNat]
  · rw [calculatePercentile_nonempty _ _ (by simp) h99]
    rw [show ⌈(([10, 20, 30, 40, 50, 60, 70, 80, 90, 100] : List ℚ).length : ℚ) *
        mkRat 99 100⌉ = 10 by rw [Rat.mkRat_eq_div]; rw [Int.ceil_eq_iff]; norm_num]
    rw [show ((10 : ℤ) - 1).toNat = 9 from rfl]
    norm_num [List.getD, round_ofNat]

/-- Witness for C3: the percentile characterization applied to a
one-entry snapshot log. -/
theorem calculateMetrics_percentiles_witness :
    (calculateMetrics [] [{ timestamp := 0, responseTime := 10, isFraud := false }] []).p95_latency_ms =
      round ((List.insertionSort (· ≤ ·)
          (([{ timestamp := 0, responseTime := 10, isFraud := false }] :
            List MetricsSnapshot).map (fun m => m.responseTime))).getD
        (⌈(([{ timestamp := 0, responseTime := 10, isFraud := false }] :
            List MetricsSnapshot).length : ℚ) * mkRat 95 100⌉ - 1).toNat 0) :=
  (calculateMetrics_percentiles []
    [{ timestamp := 0, responseTime := 10, isFraud := false }] [] (by decide)).1

/-! ### C9 and C10: alert rule lemmas -/

/-- The six constant alert titles, one per rule, in push order. -/
def alertTitles : List String :=
  ["Elevated Fraud Detection Rate", "High False Positive Rate",
   "System Performance Degradation", "High-Value Fraud Detected",
   "High-Risk Merchant Activity", "Abnormal Transaction Velocity"]

theorem highFraudAlert_titles (dr : ℚ) (now : ℤ) :
    List.Sublist ((highFraudAlert dr now).map (fun a => a.title)) ["Elevated Fraud Detection Rate"] := by
  unfold highFraudAlert
  split
  · simp only [List.map_cons, List.map_nil]
    exact List.Sublist.refl _
  · exact List.nil_sublist _

theorem falsePosAlert_titles (fpr : ℚ) (now : ℤ) :
    List.Sublist ((falsePosAlert fpr now).map (fun a => a.title)) ["High False Positive Rate"] := by
  unfold falsePosAlert
  split
  · simp only [List.map_cons, List.map_nil]
    exact List.Sublist.refl _
  · exact List.nil_sublist _

theorem performanceAlert_titles (rt now : ℤ) :
    List.Sublist ((performanceAlert rt now).map (fun a => a.title)) ["System Performance Degradation"] := by
  unfold performanceAlert
  split
  · simp only [List.map_cons, List.map_nil]
    exact List.Sublist.refl _
  · exact List.nil_sublist _

theorem highValueAlert_titles (ts : List Transaction) (now : ℤ) :
    List.Sublist ((highValueAlert ts now).map (fun a => a.title)) ["High-Value Fraud Detected"] := by
  unfold highValueAlert
  split
  · simp only [List.map_cons, List.map_nil]
    exact List.Sublist.refl _
  · exact List.nil_sublist _

theorem merchantRiskAlert_titles (ts : List Transaction) (now : ℤ) :
    List.Sublist ((merchantRiskAlert ts now).map (fun a => a.title)) ["High-Risk Merchant Activity"] := by
  unfold merchantRiskAlert
  split
  · simp only [List.map_cons, List.map_nil]
    exact List.Sublist.refl _
  · exact List.nil_sublist _

theorem velocityAlert_titles (ts : List Transaction) (now : ℤ) :
    List.Sublist ((velocityAlert ts now).map (fun a => a.title)) ["Abnormal Transaction Velocity"] := by
  simp only [velocityAlert]
  split
  · simp only [List.map_cons, List.map_nil]
    exact List.Sublist.refl _
  · exact List.nil_sublist _

/-- The titles of the raw alerts form a sublist of the six rule titles. -/
theorem rawAlerts_titles_sublist (ts : List Transaction) (m : PartialMetrics) (now : ℤ) :
    List.Sublist ((rawAlerts ts m now).map (fun a => a.title)) alertTitles := by
  unfold rawAlerts alertTitles
  simp only [List.map_append]
  exact ((((((highFraudAlert_titles _ _).append (falsePosAlert_titles _ _)).append
    (performanceAlert_titles _ _)).append (highValueAlert_titles _ _)).append
    (merchantRiskAlert_titles _ _)).append (velocityAlert_titles _ _))

/-- C9: within one call, generateAlerts returns a list sorted by severity
rank ascending (CRITICAL = 0, WARNING = 1, INFO = 2) with ties broken by
timestamp descending, and no two alerts share the same
condition-transaction pair (condition identified by the rule title). -/
theorem generateAlerts_sorted_nodup (ts : List Transaction)
    (m : PartialMetrics) (now : ℤ) :
    List.Sorted alertLE (generateAlerts ts m now) ∧
    ((generateAlerts ts m now).map
      (fun a => (a.title, a.related_transaction_id))).Nodup := by
  constructor
  · exact List.sorted_insertionSort alertLE _
  · have hperm : (generateAlerts ts m now).Perm (rawAlerts ts m now) :=
      List.perm_insertionSort _ _
    rw [List.Perm.nodup_iff (hperm.map _)]
    apply List.Nodup.of_map Prod.fst
    rw [List.map_map]
    have htitles : ((rawAlerts ts m now).map (fun a => a.title)).Nodup :=
      (rawAlerts_titles_sublist ts m now).nodup (by decide)
    exact htitles

/-! ### C10: severities emitted by the rules -/

theorem highFraudAlert_severity (dr : ℚ) (now : ℤ) (a : Alert)
    (ha : a ∈ highFraudAlert dr now) :
    a.severity = Severity.CRITICAL ∨ a.severity = Severity.WARNING := by
  unfold highFraudAlert at ha
  split at ha
  · rw [List.mem_singleton] at ha
    subst ha
    by_cases hdr : dr > mkRat 2 10 <;> simp [hdr]
  · exact absurd ha (List.not_mem_nil a)

theorem falsePosAlert_severity (fpr : ℚ) (now : ℤ) (a : Alert)
    (ha : a ∈ falsePosAlert fpr now) :
    a.severity = Severity.CRITICAL ∨ a.severity = Severity.WARNING := by
  unfold falsePosAlert at ha
  split at ha
  · rw [List.mem_singleton] at ha
    subst ha
    exact Or.inr rfl
  · exact absurd ha (List.not_mem_nil a)

theorem performanceAlert_severity (rt now : ℤ) (a : Alert)
    (ha : a ∈ performanceAlert rt now) :
    a.severity = Severity.CRITICAL ∨ a.severity = Severity.WARNING := by
  unfold performanceAlert at ha
  split at ha
  · rw [List.mem_singleton] at ha
    subst ha
    by_cases hrt : rt > 5000 <;> simp [hrt]
  · exact absurd ha (List.not_mem_nil a)

theorem highValueAlert_severity (ts : List Transaction) (now : ℤ) (a : Alert)
    (ha : a ∈ highValueAlert ts now) :
    a.severity = Severity.CRITICAL ∨ a.severity = Severity.WARNING := by
  unfold highValueAlert at ha
  split at ha
  · rw [List.mem_singleton] at ha
    subst ha
    exact Or.inl rfl
  · exact absurd ha (List.not_mem_nil a)

theorem merchantRiskAlert_severity (ts : List Transaction) (now : ℤ) (a : Alert)
    (ha : a ∈ merchantRiskAlert ts now) :
    a.severity = Severity.CRITICAL ∨ a.severity = Severity.WARNING := by
  unfold merchantRiskAlert at ha
  split at ha
  · rw [List.mem_singleton] at ha
    subst ha
    exact Or.inr rfl
  · exact absurd ha (List.not_mem_nil a)

theorem velocityAlert_severity (ts : List Transaction) (now : ℤ) (a : Alert)
    (ha : a ∈ velocityAlert ts now) :
    a.severity = Severity.CRITICAL ∨ a.severity = Severity.WARNING := by
  simp only [velocityAlert] at ha
  split at ha
  · rw [List.mem_singleton] at ha
    subst ha
    exact Or.inr rfl
  · exact absurd ha (List.not_mem_nil a)

/-- C10: every alert generateAlerts emits has severity CRITICAL or
WARNING; the INFO severity, although ranked by the sort comparator, is
never produced by any of the six rules. -/
theorem generateAlerts_no_info (ts : List Transaction) (m : PartialMetrics)
    (now : ℤ) (a : Alert) (h : a ∈ generateAlerts ts m now) :
    a.severity = Severity.CRITICAL ∨ a.severity = Severity.WARNING := by
  have hraw : a ∈ rawAlerts ts m now :=
    (List.perm_insertionSort alertLE _).subset h
  unfold rawAlerts at hraw
  simp only [List.mem_append] at hraw
  rcases hraw with ((((h1 | h2) | h3) | h4) | h5) | h6
  · exact highFraudAlert_severity _ _ _ h1
  · exact falsePosAlert_severity _ _ _ h2
  · exact performanceAlert_severity _ _ _ h3
  · exact highValueAlert_severity _ _ _ h4
  · exact merchantRiskAlert_severity _ _ _ h5
  · exact velocityAlert_severity _ _ _ h6

/-- A critical high-value transaction for concrete alert evaluation. -/
def txBig : Transaction :=
  { txLOW with id := "T9", amount := 20000, riskLevel := RiskLevel.CRITICAL }

/-- Empty partial metrics: every read falls back to 0. -/
def noMetrics : PartialMetrics :=
  { detection_rate := none, false_positive_rate := none, avg_response_time_ms := none }

/-- Witness for C10: on a concrete high-value critical transaction the
generator emits the high-value alert, whose severity is CRITICAL. -/
theorem generateAlerts_no_info_witness :
    ({ id := "ALERT_HIGH_VALUE_5", severity := Severity.CRITICAL,
       title := "High-Value Fraud Detected",
       description := "Critical risk transaction of $20000 detected at QuickMart Retail",
       timestamp := 5, related_transaction_id := some "T9" } : Alert) ∈
        generateAlerts [txBig] noMetrics 5 ∧
      (({ id := "ALERT_HIGH_VALUE_5", severity := Severity.CRITICAL,
          title := "High-Value Fraud Detected",
          description := "Critical risk transaction of $20000 detected at QuickMart Retail",
          timestamp := 5, related_transaction_id := some "T9" } : Alert).severity =
          Severity.CRITICAL ∨
        ({ id := "ALERT_HIGH_VALUE_5", severity := Severity.CRITICAL,
           title := "High-Value Fraud Detected",
           description := "Critical risk transaction of $20000 detected at QuickMart Retail",
           timestamp := 5, related_transaction_id := some "T9" } : Alert).severity =
          Severity.WARNING) :=
  ⟨by decide, generateAlerts_no_info [txBig] noMetrics 5 _ (by decide)⟩
